import Mathlib

set_option maxRecDepth 100000

/-
Verification of the plants gallery page (src/pages/index.tsx).

The page is a single React component tree:
  Gallery      - holds the session list in useState, seeded from the
                 build-time supabase query result (which may be null);
  BlurImage    - one tile per record (cosmetic only);
  Uploader     - a modal form (react-hook-form) with fields imageSrc,
                 name, username, key; onSubmit gates on key equal to
                 the literal string "on", inserts into supabase, appends
                 locally, closes the modal.

We embed the data model, the validation, the submit handler and the
render shape as executable Lean definitions, translated from the source.
-/

namespace Plants

/-- ImageRecord mirrors the `Image` type of src/pages/index.tsx: exactly the
four fields id, imageSrc, name, username. JS numbers carrying ids are
modelled as Int. -/
structure ImageRecord where
  id : Int
  imageSrc : String
  name : String
  username : String
deriving Repr, DecidableEq

/-- Inputs mirrors the `Inputs` form type: the four text fields collected by
the Uploader modal. -/
structure Inputs where
  imageSrc : String
  name : String
  username : String
  key : String
deriving Repr, DecidableEq

/-- Character class of the first bracket group of the imageSrc pattern in
the Uploader: [-a-zA-Z0-9@:%._\+~#=]. -/
def urlClassA (c : Char) : Bool :=
  (decide ('a' ≤ c) && decide (c ≤ 'z')) ||
  (decide ('A' ≤ c) && decide (c ≤ 'Z')) ||
  (decide ('0' ≤ c) && decide (c ≤ '9')) ||
  c = '-' || c = '@' || c = ':' || c = '%' || c = '.' ||
  c = '_' || c = '+' || c = '~' || c = '#' || c = '='

/-- Lowercase ASCII letter, the class [a-z] of the pattern. -/
def isLowerAZ (c : Char) : Bool :=
  decide ('a' ≤ c) && decide (c ≤ 'z')

/-- JS regex word character [A-Za-z0-9_], used by the \b boundary. -/
def isWordChar (c : Char) : Bool :=
  (decide ('a' ≤ c) && decide (c ≤ 'z')) ||
  (decide ('A' ≤ c) && decide (c ≤ 'Z')) ||
  (decide ('0' ≤ c) && decide (c ≤ '9')) || c = '_'

/-- Matches [a-z]{2,6}\b at the head of cs: some m between 2 and 6
lowercase letters followed by a word boundary (end of input or a
non-word character). Backtracking over the greedy quantifier is the
existential over m. -/
def lowerTailOk (cs : List Char) : Bool :=
  (List.range' 2 5).any fun m =>
    decide (m ≤ cs.length) && (cs.take m).all isLowerAZ &&
      (match cs.drop m with
       | [] => true
       | c :: _ => !isWordChar c)

/-- Matches, at the head of cs, the satisfiable core of the Uploader
imageSrc regex

  (http(s)?:\/\/.)?(www\.)?[-a-zA-Z0-9@:%._\+~#=]{2,256}\.[a-z]{2,6}\b([-a-zA-Z0-9@:%_\+.~#?&//=]*)

namely [-a-zA-Z0-9@:%._\+~#=]{2,256}\.[a-z]{2,6}\b. The two leading groups
are optional and the trailing star may match empty, so for the purposes of
RegExp.test (does any substring match, see patternTest) they can be dropped:
a match that uses a leading option contains a core match at a later start
index, and a core match extends to a full match with both options empty and
an empty trailing group. -/
def mainMatchAt (cs : List Char) : Bool :=
  (List.range' 2 255).any fun k =>
    decide (k + 1 ≤ cs.length) && (cs.take k).all urlClassA &&
      ((cs.drop k).head? = some '.') && lowerTailOk (cs.drop (k + 1))

/-- RegExp.test of the Uploader imageSrc pattern: the regex is unanchored,
so the test succeeds iff a match starts at some index of the string. -/
def patternTest (s : String) : Bool :=
  (List.range (s.length + 1)).any fun i => mainMatchAt (s.toList.drop i)

/-- Client-side validation performed by react-hook-form before onSubmit is
invoked: imageSrc is required and must pass the pattern test; key is
required; name and username carry no constraint. A required text field
fails exactly when its value is the empty string. -/
def validInputs (data : Inputs) : Bool :=
  !(data.imageSrc == "") && patternTest data.imageSrc && !(data.key == "")

/-- The record built by onSubmit when the key gate passes:
id = amount + 1, imageSrc as entered, name and username defaulted through
the JS or-else idiom (empty string is falsy). -/
def mkItem (amount : Nat) (data : Inputs) : ImageRecord :=
  { id := (amount : Int) + 1
    imageSrc := data.imageSrc
    name := if data.name = "" then "plant from anonymous" else data.name
    username := if data.username = "" then "anonymous" else data.username }

/-- The UI state the submit flow touches: the session list owned by
Gallery, the modal open flag owned by Uploader, and the external store
contents (the supabase images table) as observed through inserts. -/
structure UIState where
  localImages : List ImageRecord
  isOpen : Bool
  store : List ImageRecord
deriving Repr, DecidableEq

/-- closeModal of the Uploader: sets the open flag to false and nothing
else. -/
def closeModal (st : UIState) : UIState :=
  { st with isOpen := false }

/-- onSubmit of the Uploader. If key differs from the literal "on", close
the modal and return (no insert, no append, no error surfaced). Otherwise
build the item, await the store insert (whose success or failure is the
insertOk flag: the result is never inspected by the code, so the local
append and the modal close happen either way), append the item to the
parent list, and close the modal. -/
def onSubmit (amount : Nat) (data : Inputs) (insertOk : Bool) (st : UIState) : UIState :=
  if data.key ≠ "on" then closeModal st
  else
    let item := mkItem amount data
    closeModal
      { st with
        store := if insertOk then st.store ++ [item] else st.store
        localImages := st.localImages ++ [item] }

/-- handleSubmit(onSubmit) of react-hook-form: onSubmit runs only when
validation passes; on validation failure nothing in this state changes
(inline errors are surfaced, the modal stays as it was). The amount prop
passed to the Uploader is the current length of the parent list. -/
def handleSubmit (data : Inputs) (insertOk : Bool) (st : UIState) : UIState :=
  if validInputs data then onSubmit st.localImages.length data insertOk st else st

/-- One submission event: the form data and the outcome of the awaited
store insert. -/
def step (st : UIState) (ev : Inputs × Bool) : UIState :=
  handleSubmit ev.1 ev.2 st

/-- A session: a sequence of submission events applied in order. -/
def run (st : UIState) (evs : List (Inputs × Bool)) : UIState :=
  evs.foldl step st

/-- The records a sequence of events appends to a list currently of length
amount: each event that passes validation and the key gate contributes
mkItem at the running length, which grows by one per accepted event. -/
def appendedOf (amount : Nat) : List (Inputs × Bool) → List ImageRecord
  | [] => []
  | e :: rest =>
    if validInputs e.1 && e.1.key == "on" then
      mkItem amount e.1 :: appendedOf (amount + 1) rest
    else
      appendedOf amount rest

/-- What the gallery grid shows: either one tile per record, in list
order, or the fallback heading. -/
inductive Rendered where
  | tiles : List ImageRecord → Rendered
  | fallback : Rendered
deriving Repr, DecidableEq

/-- The grid conditional of Gallery: localImages is either an array
(truthy in JS, even when empty) mapped to one BlurImage tile per record in
order, or null (falsy) rendering the Images-not-found heading. -/
def galleryBody : Option (List ImageRecord) → Rendered
  | some imgs => Rendered.tiles imgs
  | none => Rendered.fallback

/-- The amount prop handed to the Uploader: localImages.length, evaluated
unconditionally while rendering Gallery, before the grid conditional. On a
null list this property access throws a TypeError. -/
def uploaderAmount : Option (List ImageRecord) → Except String Nat
  | none => Except.error "TypeError: cannot read length of null"
  | some imgs => Except.ok imgs.length

/-- Rendering Gallery: first the Uploader receives localImages.length
(faulting on null), then the grid conditional chooses tiles or fallback. -/
def renderGallery (localImages : Option (List ImageRecord)) :
    Except String (Nat × Rendered) :=
  (uploaderAmount localImages).map fun amount => (amount, galleryBody localImages)

/-- Helper: a validated, gated submission in full: the item is appended to
the local list, inserted into the store exactly when the insert succeeds,
and the modal is closed. -/
theorem handleSubmit_gated (data : Inputs) (ok : Bool) (st : UIState)
    (hv : validInputs data = true) (hk : data.key = "on") :
    handleSubmit data ok st =
      { localImages := st.localImages ++ [mkItem st.localImages.length data]
        isOpen := false
        store := if ok then st.store ++ [mkItem st.localImages.length data] else st.store } := by
  simp [handleSubmit, hv, onSubmit, hk, closeModal]

/-- Helper: a validated submission whose key is not the gate literal only
closes the modal. -/
theorem handleSubmit_wrongKey (data : Inputs) (ok : Bool) (st : UIState)
    (hv : validInputs data = true) (hk : data.key ≠ "on") :
    handleSubmit data ok st = { st with isOpen := false } := by
  simp [handleSubmit, hv, onSubmit, hk, closeModal]

/-- Helper: a submission failing validation changes nothing. -/
theorem handleSubmit_invalid (data : Inputs) (ok : Bool) (st : UIState)
    (hv : validInputs data = false) :
    handleSubmit data ok st = st := by
  simp [handleSubmit, hv]

/-- Helper: the local list after one submission event, in all cases. -/
theorem handleSubmit_localImages (data : Inputs) (ok : Bool) (st : UIState) :
    (handleSubmit data ok st).localImages =
      if validInputs data && data.key == "on" then
        st.localImages ++ [mkItem st.localImages.length data]
      else
        st.localImages := by
  cases hv : validInputs data with
  | false => simp [handleSubmit_invalid data ok st hv, hv]
  | true =>
    by_cases hk : data.key = "on"
    · simp [handleSubmit_gated data ok st hv hk, hv, hk]
    · simp [handleSubmit_wrongKey data ok st hv hk, hv, hk]

/-- Helper: over any sequence of events the local list only grows, by
exactly the accepted items in order: the displayed list is always the
initial list followed by appendedOf at the initial length. -/
theorem run_localImages (evs : List (Inputs × Bool)) (st : UIState) :
    (run st evs).localImages =
      st.localImages ++ appendedOf st.localImages.length evs := by
  induction evs generalizing st with
  | nil => simp [run, appendedOf]
  | cons e rest ih =>
    rcases e with ⟨data, ok⟩
    have hstep : run st ((data, ok) :: rest) = run (handleSubmit data ok st) rest := by
      simp [run, step, List.foldl]
    rw [hstep, ih]
    rw [handleSubmit_localImages]
    by_cases hc : validInputs data && data.key == "on"
    · simp [hc, appendedOf, List.append_assoc]
    · simp [hc, appendedOf]

/-- C1: submitting with key equal to "on", an imageSrc passing validation,
and empty name and username appends exactly one record to the list of
length N, with name "plant from anonymous", username "anonymous",
id N + 1, and imageSrc as entered. -/
theorem C1_anonymous_submit_appends (data : Inputs) (ok : Bool) (st : UIState)
    (hpat : patternTest data.imageSrc = true) (hsrc : data.imageSrc ≠ "")
    (hkey : data.key = "on") (hname : data.name = "") (huser : data.username = "") :
    (handleSubmit data ok st).localImages =
      st.localImages ++
        [{ id := (st.localImages.length : Int) + 1
           imageSrc := data.imageSrc
           name := "plant from anonymous"
           username := "anonymous" }] := by
  have hv : validInputs data = true := by
    simp [validInputs, hpat, hsrc, hkey]
  rw [handleSubmit_gated data ok st hv hkey]
  simp [mkItem, hname, huser]

/-- Witness for C1 at a concrete input and the empty initial list. -/
theorem C1_anonymous_submit_appends_witness :
    patternTest "https://www.example.com/a.png" = true ∧
    (handleSubmit
        { imageSrc := "https://www.example.com/a.png", name := "", username := "", key := "on" }
        true { localImages := [], isOpen := true, store := [] }).localImages =
      [{ id := 1, imageSrc := "https://www.example.com/a.png",
         name := "plant from anonymous", username := "anonymous" }] :=
  ⟨by decide, by
    rw [C1_anonymous_submit_appends _ _ _ (by decide) (by decide) rfl rfl rfl]
    decide⟩

/-- C2: a submission whose fields pass validation but whose key differs
from "on" only closes the modal: no store insert, local list unchanged,
and nothing else in the state changes, so no error is shown. -/
theorem C2_wrong_key_silent (data : Inputs) (ok : Bool) (st : UIState)
    (hv : validInputs data = true) (hk : data.key ≠ "on") :
    handleSubmit data ok st = { st with isOpen := false } :=
  handleSubmit_wrongKey data ok st hv hk

/-- Witness for C2 with key "off" and otherwise-valid fields. -/
theorem C2_wrong_key_silent_witness :
    validInputs { imageSrc := "https://www.example.com/a.png", name := "", username := "",
                  key := "off" } = true ∧
    handleSubmit
        { imageSrc := "https://www.example.com/a.png", name := "", username := "", key := "off" }
        true { localImages := [], isOpen := true, store := [] } =
      { localImages := [], isOpen := false, store := [] } :=
  ⟨by decide, by
    rw [C2_wrong_key_silent _ _ _ (by decide) (by decide)]⟩

/-- C3: the claim says a null initial sequence renders the fallback and
zero tiles; the code instead faults (TypeError) evaluating
localImages.length for the Uploader before the grid conditional is
reached, even though the conditional itself would pick the fallback on a
null list. -/
theorem C3_null_initial_faults :
    renderGallery none = Except.error "TypeError: cannot read length of null" ∧
    galleryBody none = Rendered.fallback :=
  ⟨rfl, rfl⟩

/-- C4: invariant on the rendered list: a non-null sequence renders one
tile per record in input order, and over any sequence of submission
events the list is always the initial list followed by the accepted
items in submission order; existing records are never removed, reordered
or de-duplicated. -/
theorem C4_display_order_invariant :
    (∀ imgs : List ImageRecord, galleryBody (some imgs) = Rendered.tiles imgs) ∧
    (∀ (st : UIState) (evs : List (Inputs × Bool)),
      (run st evs).localImages =
        st.localImages ++ appendedOf st.localImages.length evs) :=
  ⟨fun _ => rfl, fun st evs => run_localImages evs st⟩

/-- C5: a validated, gated submission appends to the local list and
closes the modal for both outcomes of the awaited store insert; the
resulting state is identical except for the store contents, so no
user-visible error appears on remote failure. -/
theorem C5_append_regardless_of_insert (data : Inputs) (st : UIState)
    (hv : validInputs data = true) (hk : data.key = "on") :
    ∀ ok : Bool,
      (handleSubmit data ok st).localImages =
          st.localImages ++ [mkItem st.localImages.length data] ∧
      (handleSubmit data ok st).isOpen = false := by
  intro ok
  rw [handleSubmit_gated data ok st hv hk]
  exact ⟨rfl, rfl⟩

/-- Witness for C5 at a concrete input, remote failure included. -/
theorem C5_append_regardless_of_insert_witness :
    validInputs { imageSrc := "https://www.example.com/a.png", name := "a", username := "b",
                  key := "on" } = true ∧
    (handleSubmit
        { imageSrc := "https://www.example.com/a.png", name := "a", username := "b", key := "on" }
        false { localImages := [], isOpen := true, store := [] }).localImages =
      [{ id := 1, imageSrc := "https://www.example.com/a.png", name := "a", username := "b" }] :=
  ⟨by decide, by
    have h := C5_append_regardless_of_insert
      { imageSrc := "https://www.example.com/a.png", name := "a", username := "b", key := "on" }
      { localImages := [], isOpen := true, store := [] } (by decide) rfl false
    rw [h.1]
    decide⟩

/-- C6: from a list of length N, two sequential validated, gated
submissions (the second after the first append is reflected) append two
records with ids N + 1 and N + 2, rendered in that order. -/
theorem C6_two_sequential_submissions (d1 d2 : Inputs) (st : UIState)
    (hv1 : validInputs d1 = true) (hk1 : d1.key = "on")
    (hv2 : validInputs d2 = true) (hk2 : d2.key = "on") :
    (run st [(d1, true), (d2, true)]).localImages =
      st.localImages ++
        [mkItem st.localImages.length d1, mkItem (st.localImages.length + 1) d2] ∧
    (mkItem st.localImages.length d1).id = (st.localImages.length : Int) + 1 ∧
    (mkItem (st.localImages.length + 1) d2).id = (st.localImages.length : Int) + 2 ∧
    galleryBody (some (run st [(d1, true), (d2, true)]).localImages) =
      Rendered.tiles
        (st.localImages ++
          [mkItem st.localImages.length d1, mkItem (st.localImages.length + 1) d2]) := by
  have h : (run st [(d1, true), (d2, true)]).localImages =
      st.localImages ++
        [mkItem st.localImages.length d1, mkItem (st.localImages.length + 1) d2] := by
    rw [run_localImages]
    simp [appendedOf, hv1, hk1, hv2, hk2]
  refine ⟨h, rfl, ?_, by simp only [h, galleryBody]⟩
  simp [mkItem]
  omega

/-- Witness for C6 at concrete inputs from the empty initial list. -/
theorem C6_two_sequential_submissions_witness :
    validInputs { imageSrc := "https://www.example.com/a.png", name := "", username := "",
                  key := "on" } = true ∧
    (run { localImages := [], isOpen := true, store := [] }
        [({ imageSrc := "https://www.example.com/a.png", name := "", username := "",
            key := "on" }, true),
         ({ imageSrc := "https://www.example.com/a.png", name := "", username := "",
            key := "on" }, true)]).localImages =
      [{ id := 1, imageSrc := "https://www.example.com/a.png",
         name := "plant from anonymous", username := "anonymous" },
       { id := 2, imageSrc := "https://www.example.com/a.png",
         name := "plant from anonymous", username := "anonymous" }] :=
  ⟨by decide, by
    have h := C6_two_sequential_submissions
      { imageSrc := "https://www.example.com/a.png", name := "", username := "", key := "on" }
      { imageSrc := "https://www.example.com/a.png", name := "", username := "", key := "on" }
      { localImages := [], isOpen := true, store := [] }
      (by decide) rfl (by decide) rfl
    rw [h.1]
    decide⟩

/-- C7: a submission with missing imageSrc, missing key, or an imageSrc
failing the pattern test never reaches onSubmit: the state, the modal
open flag included, is unchanged. -/
theorem C7_invalid_blocks (data : Inputs) (ok : Bool) (st : UIState)
    (h : data.imageSrc = "" ∨ data.key = "" ∨ patternTest data.imageSrc = false) :
    handleSubmit data ok st = st := by
  apply handleSubmit_invalid
  rcases h with h | h | h <;> simp [validInputs, h]

/-- Witness for C7 at the concrete input mentioned by the claim, with the
modal open: it stays open and the list stays empty. -/
theorem C7_invalid_blocks_witness :
    patternTest "not a url" = false ∧
    handleSubmit { imageSrc := "not a url", name := "", username := "", key := "on" }
        true { localImages := [], isOpen := true, store := [] } =
      { localImages := [], isOpen := true, store := [] } :=
  ⟨by decide,
    C7_invalid_blocks _ _ _ (Or.inr (Or.inr (by decide)))⟩

/-- C8 counterexample: the input "not a.url" named by the claim does NOT
pass validation (its dot is preceded by a single class character, but the
pattern needs at least two), so submission with it is blocked, not
accepted. -/
theorem C8_example_not_a_url_fails :
    patternTest "not a.url" = false ∧
    handleSubmit { imageSrc := "not a.url", name := "", username := "", key := "on" }
        true { localImages := [], isOpen := true, store := [] } =
      { localImages := [], isOpen := true, store := [] } := by
  exact ⟨by decide, by decide⟩

/-- C8 amended: the pattern is unanchored, so some strings that are not
URLs as a whole but contain a URL-shaped substring pass validation and
submission proceeds; witnessed by "not a url but example.com". -/
theorem C8_unanchored_pattern_accepts_substring :
    patternTest "not a url but example.com" = true ∧
    (handleSubmit
        { imageSrc := "not a url but example.com", name := "", username := "", key := "on" }
        true { localImages := [], isOpen := true, store := [] }).localImages =
      [{ id := 1, imageSrc := "not a url but example.com",
         name := "plant from anonymous", username := "anonymous" }] := by
  exact ⟨by decide, by decide⟩

/-- C9: Gallery evaluates localImages.length for the Uploader before the
null check guarding the fallback, so rendering succeeds exactly on
non-null input: a null initial value faults before the fallback is
reached, and a non-null list of N records renders N tiles. -/
theorem C9_length_before_null_check :
    (renderGallery none).isOk = false ∧
    ∀ imgs : List ImageRecord,
      renderGallery (some imgs) = Except.ok (imgs.length, Rendered.tiles imgs) :=
  ⟨rfl, fun _ => rfl⟩

/-- C10: on a gated submission with a successful insert, the record
appended to the store and the record appended to the local list are the
same mkItem value, which carries exactly the fields id, imageSrc, name
and username; the key field is not part of it. -/
theorem C10_same_record_inserted_and_appended (data : Inputs) (st : UIState)
    (hv : validInputs data = true) (hk : data.key = "on") :
    (handleSubmit data true st).store = st.store ++ [mkItem st.localImages.length data] ∧
    (handleSubmit data true st).localImages =
      st.localImages ++ [mkItem st.localImages.length data] ∧
    mkItem st.localImages.length data =
      { id := (st.localImages.length : Int) + 1
        imageSrc := data.imageSrc
        name := if data.name = "" then "plant from anonymous" else data.name
        username := if data.username = "" then "anonymous" else data.username } := by
  rw [handleSubmit_gated data true st hv hk]
  exact ⟨rfl, rfl, rfl⟩

/-- Witness for C10 at a concrete input: the store and the list receive
the same record. -/
theorem C10_same_record_inserted_and_appended_witness :
    validInputs { imageSrc := "https://www.example.com/a.png", name := "n", username := "u",
                  key := "on" } = true ∧
    (handleSubmit
        { imageSrc := "https://www.example.com/a.png", name := "n", username := "u", key := "on" }
        true { localImages := [], isOpen := true, store := [] }).store =
      [{ id := 1, imageSrc := "https://www.example.com/a.png", name := "n", username := "u" }] :=
  ⟨by decide, by
    have h := C10_same_record_inserted_and_appended
      { imageSrc := "https://www.example.com/a.png", name := "n", username := "u", key := "on" }
      { localImages := [], isOpen := true, store := [] } (by decide) rfl
    rw [h.1]
    decide⟩

end Plants
